import Mathlib

/-!
Verification of the roadamico event/list controller surface.

The definitions below are a shallow embedding of the two request-handler
modules of the repository:

* `src/server/api/event/event.controller.js` — the Event handlers
  (`show`, `create`, `update`, `cancel`, `join`, `unjoin`, `message`) and the
  authorization predicates `canView` / `canEdit`;
* the List controller (`src/unnamed/part_000`) — the `update` handler with its
  place-reference normalization.

Mongoose documents are modeled as Lean structures; ObjectIds as `Nat`;
ISO datetime strings produced by `moment().toISOString()` as an opaque
`String` parameter `now` supplied to each handler. A handler is modeled as a
pure function from its inputs (the authenticated actor `req.user`, the result
of the `findById` lookup, the request body, the current time) to a
`HandlerOutcome` recording the HTTP response, the document written back by
`save` (if any), and the notification records submitted to
`Notification.create`.
-/

namespace RoadAmico

abbrev UserId := Nat
abbrev GroupId := Nat
abbrev PlaceId := Nat

/-- The authenticated actor injected by upstream middleware:
`req.user = { _id, role, groups }`. -/
structure User where
  _id : UserId
  role : String
  groups : List GroupId
deriving DecidableEq, Repr

/-- A group document as populated into `event.groupRestriction`
(`populate('groupRestriction', 'administrator')`): carries its `_id` and an
optional `administrator` reference. -/
structure Group where
  _id : GroupId
  administrator : Option UserId
deriving DecidableEq, Repr

/-- One entry of `event.participants`: `{ participant, datetime }`. -/
structure ParticipantEntry where
  participant : UserId
  datetime : String
deriving DecidableEq, Repr

/-- One entry of `event.messages`: `{ poster, datetime, text }`. -/
structure MessageEntry where
  poster : UserId
  datetime : String
  text : String
deriving DecidableEq, Repr

/-- An Event document. An absent `groupRestriction` array is modeled as `[]`
(the code only ever asks `event.groupRestriction && event.groupRestriction.length`,
which does not distinguish the two). -/
structure Event where
  name : String
  datetime : String
  meetupTime : String
  meetupPlace : String
  place : Option String
  creator : UserId
  created : String
  canceled : Bool
  groupRestriction : List Group
  participants : List ParticipantEntry
  messages : List MessageEntry
deriving DecidableEq, Repr

/-!
## Authorization predicates

```js
// Can view if admin, not restricted, or member of restriction group
var canView = _.curry(function (user, event) {
  var a = !(event.groupRestriction && event.groupRestriction.length);
  if (!user) { return a; }
  var b = user.role === 'admin' || user.role === 'curator';
  var c = !!_.find(event.groupRestriction, function (group) {
    return (group.administrator && group.administrator.equals(user._id)) ||
           !!_.find(user.groups, function (groupId) {
             return group._id.equals(groupId);
           });
  });
  return a || b || c;
});
```
-/

/-- The shared sub-expression
`group.administrator && group.administrator.equals(user._id)`:
false when `administrator` is absent, else an id comparison. -/
def groupAdministeredBy (group : Group) (uid : UserId) : Bool :=
  match group.administrator with
  | some adminId => adminId == uid
  | none => false

/-- Predicate `canView(user, event)`. `req.user` may be absent, hence `Option User`. -/
def canView (user : Option User) (event : Event) : Bool :=
  let a := event.groupRestriction.isEmpty
  match user with
  | none => a
  | some u =>
    let b := u.role == "admin" || u.role == "curator"
    let c := event.groupRestriction.any fun group =>
      groupAdministeredBy group u._id
      || u.groups.any fun groupId => group._id == groupId
    a || b || c

/-!
```js
// Can edit if admin, creator, or leader of restriction group
var canEdit = _.curry(function (user, event) {
  var a = user.role === 'admin' || user.role === 'curator';
  var b = event.creator.equals(user._id);
  var c = !!_.find(event.groupRestriction, function (group) {
    return group.administrator && group.administrator.equals(user._id);
  });
  return a || b || c;
});
```

With an absent `user`, the very first line `user.role` throws a
`TypeError` (reading a property of `undefined`): the function does not
return. We model the thrown exception as `none` and a returned boolean as
`some b`.
-/

/-- Predicate `canEdit(user, event)`; `none` models the `TypeError` thrown when
`user` is absent. -/
def canEdit (user : Option User) (event : Event) : Option Bool :=
  match user with
  | none => none
  | some u =>
    let a := u.role == "admin" || u.role == "curator"
    let b := event.creator == u._id
    let c := event.groupRestriction.any fun group => groupAdministeredBy group u._id
    some (a || b || c)

/-!
## Handler outcome model
-/

/-- Notification payload. `cancel` builds `{name: 'event.cancel', event, when}`;
`message` builds `{name: 'event.message', text, event, poster}` with `poster`
the whole `req.user`. The display string `when` (the external `moment`
library's `'llll'` rendering of `event.datetime`) is not modeled: no claim
touches it and its format lives outside this repository. -/
structure NotificationData where
  name : String
  event : Event
  text : Option String
  poster : Option User
deriving DecidableEq, Repr

/-- A record submitted to `Notification.create`: `{ user, datetime, data }`. -/
structure Notification where
  user : UserId
  datetime : String
  data : NotificationData
deriving DecidableEq, Repr

/-- The HTTP response a handler renders. `res.send(status)` is `send`;
`res.json(status, {message})` is `jsonMsg`; `res.json(event)` /
`res.json(status, event)` is `jsonEvent` (bare `res.json(x)` defaults to
status 200). -/
inductive Response where
  | send (status : Nat)
  | jsonMsg (status : Nat) (message : String)
  | jsonEvent (status : Nat) (event : Event)
deriving DecidableEq, Repr

/-- Everything observable a handler run produces: the response, the event
written back by `event.save` / `Event.create` (`none` when nothing is
persisted), and the records passed to `Notification.create`. -/
structure HandlerOutcome where
  response : Response
  saved : Option Event
  notifications : List Notification
deriving DecidableEq, Repr

/-!
## JavaScript truthiness facts used by the embedding

`canView` and `canEdit` are built with `_.curry(f)` for a two-argument `f`.
Every gate in the single-event handlers is written

```js
if (!canView(req.user)) { return res.send(403); }        // show, join
if (!canEdit(req.user)) { return res.json(403, {...}); } // update, cancel
```

`canView(req.user)` supplies only the first of the two curried arguments, so
its value is a *function* (the partial application), never a boolean. In
JavaScript every function object is truthy, so `!canView(req.user)` and
`!canEdit(req.user)` evaluate to `false` on every request — the 403 branch is
dead code. The constant below is the truthiness of such a partial
application; the handlers use it exactly where the source tests the curried
call. -/
def curriedGateTruthy : Bool := true

/-- JS truthiness of `req.body.place` (an ObjectId hex string or absent):
absent and the empty string are falsy. -/
def jsTruthyOptStr : Option String → Bool
  | none => false
  | some s => s != ""

/-- JS falsy-coalescing `x || y` for an optional string field against an
existing value: an absent or empty-string field keeps the existing value. -/
def jsOrStr : Option String → String → String
  | none, d => d
  | some s, d => if s == "" then d else s

/-!
## Event handlers

Each handler takes the authenticated actor (`req.user`), the event returned
by `Event.findById` (`none` for an absent document), the relevant body
fields, and the timestamp `now` that `moment().toISOString()` yields during
the run. The storage-error branch (`handleError`, 500) of each callback is
not modeled: no claim concerns storage failures, and the lookup argument
stands for a successful `exec`.
-/

/-- Handler `exports.show` (named `show'` because `show` is a Lean keyword):

```js
Event.findById(req.params.id).populate(...).exec(function (err, event) {
  if (!event) { return res.send(404); }
  if (!canView(req.user)) { return res.send(403); }
  return res.json(event);
});
``` -/
def show' (stored : Option Event) : HandlerOutcome :=
  match stored with
  | none => ⟨.send 404, none, []⟩
  | some event =>
    if !curriedGateTruthy then ⟨.send 403, none, []⟩
    else ⟨.jsonEvent 200 event, none, []⟩

/-- The body of `exports.create` after the handler's two `delete` lines.
`participants` and `messages` are the client-supplied arrays that the
handler deletes before use; they are carried here to state that they are
discarded. -/
structure CreateBody where
  name : String
  datetime : String
  meetupTime : String
  meetupPlace : String
  place : Option String
  groupRestriction : List Group
  participants : Option (List ParticipantEntry)
  messages : Option (List MessageEntry)
deriving DecidableEq, Repr

/-- Handler `exports.create`:

```js
delete req.body.participants;
delete req.body.messages;
if (!req.body.place) {
  return res.json(403, {message: 'An event must have an associated place.'});
}
req.body.created = moment().toISOString();
req.body.creator = req.user._id;
req.body.participants = [{participant: req.user._id, datetime: moment().toISOString()}];
Event.create(req.body, ...);  // 201 with the created event
```

The persisted document takes the remaining body fields; `messages` was
deleted and never re-added, so the created document gets the schema default
`[]`. -/
def create (user : User) (body : CreateBody) (now : String) : HandlerOutcome :=
  if !jsTruthyOptStr body.place then
    ⟨.jsonMsg 403 "An event must have an associated place.", none, []⟩
  else
    let event : Event :=
      { name := body.name
        datetime := body.datetime
        meetupTime := body.meetupTime
        meetupPlace := body.meetupPlace
        place := body.place
        creator := user._id
        created := now
        canceled := false
        groupRestriction := body.groupRestriction
        participants := [{ participant := user._id, datetime := now }]
        messages := [] }
    ⟨.jsonEvent 201 event, some event, []⟩

/-- The body of `exports.update` after its three `delete` lines
(`_id`, `participants`, `messages` are stripped and hence absent here).
`groupRestriction` uses plain `||`-coalescing; every array, including the
empty one, is truthy in JS, so any present array replaces the field. -/
structure UpdateBody where
  name : Option String
  datetime : Option String
  meetupTime : Option String
  meetupPlace : Option String
  groupRestriction : Option (List Group)
deriving DecidableEq, Repr

/-- Handler `exports.update`:

```js
delete req.body._id; delete req.body.participants; delete req.body.messages;
Event.findById(req.params.id).populate(...).exec(function (err, event) {
  if (!event) { return res.send(404); }
  if (!canEdit(req.user)) {
    return res.json(403, {message: 'You are not authorized to modify this event'});
  }
  event.name = req.body.name || event.name;
  event.datetime = req.body.datetime || event.datetime;
  event.meetupTime = req.body.meetupTime || event.meetupTime;
  event.meetupPlace = req.body.meetupPlace || event.meetupPlace;
  event.groupRestriction = req.body.groupRestriction || event.groupRestriction;
  event.save(...);  // re-populate, res.json(event)
});
``` -/
def update (stored : Option Event) (body : UpdateBody) : HandlerOutcome :=
  match stored with
  | none => ⟨.send 404, none, []⟩
  | some event =>
    if !curriedGateTruthy then
      ⟨.jsonMsg 403 "You are not authorized to modify this event", none, []⟩
    else
      let event' :=
        { event with
          name := jsOrStr body.name event.name
          datetime := jsOrStr body.datetime event.datetime
          meetupTime := jsOrStr body.meetupTime event.meetupTime
          meetupPlace := jsOrStr body.meetupPlace event.meetupPlace
          groupRestriction := body.groupRestriction.getD event.groupRestriction }
      ⟨.jsonEvent 200 event', some event', []⟩

/-- Handler `exports.cancel`:

```js
Event.findById(req.params.id).populate(...).exec(function (err, event) {
  if (!event) { return res.send(404); }
  if (!canEdit(req.user)) {
    return res.json(403, {message: 'You are not authorized to modify this event'});
  }
  event.canceled = true;
  event.save(function (err, event) {
    var notifications = _(event.participants).pluck('participant')
      .map(function (id) {
        return { user: id, datetime: moment().toISOString(),
                 data: { name: 'event.cancel', event: event,
                         when: moment(event.datetime).format('llll') } };
      }).value();
    Notification.create(notifications);
    return res.json(event);
  });
});
``` -/
def cancel (stored : Option Event) (now : String) : HandlerOutcome :=
  match stored with
  | none => ⟨.send 404, none, []⟩
  | some event =>
    if !curriedGateTruthy then
      ⟨.jsonMsg 403 "You are not authorized to modify this event", none, []⟩
    else
      let event' := { event with canceled := true }
      let notifications := (event'.participants.map (·.participant)).map fun id =>
        { user := id, datetime := now
          data := { name := "event.cancel", event := event'
                    text := none, poster := none } : Notification }
      ⟨.jsonEvent 200 event', some event', notifications⟩

/-- Handler `exports.join`:

```js
Event.findById(req.params.id).populate(...).exec(function (err, event) {
  if (!event) { return res.send(404); }
  if (!canView(req.user)) { return res.send(403); }
  if (_.find(event.participants, function (p) {
      return req.user._id.equals(p.participant);
    })) {
    return res.json(403, {message: 'You have already joined this event.'});
  }
  event.participants.push({ datetime: moment().toISOString(),
                            participant: req.user._id });
  event.save(...);  // re-populate, res.json(event)
});
``` -/
def join (user : User) (stored : Option Event) (now : String) : HandlerOutcome :=
  match stored with
  | none => ⟨.send 404, none, []⟩
  | some event =>
    if !curriedGateTruthy then ⟨.send 403, none, []⟩
    else if event.participants.any (fun p => user._id == p.participant) then
      ⟨.jsonMsg 403 "You have already joined this event.", none, []⟩
    else
      let event' :=
        { event with
          participants :=
            event.participants ++ [{ participant := user._id, datetime := now }] }
      ⟨.jsonEvent 200 event', some event', []⟩

/-- JS `Array.prototype.findIndex`: index of the first match, `-1` when none. -/
def jsFindIndex (f : α → Bool) : List α → Int
  | [] => -1
  | x :: xs =>
    if f x then 0
    else
      let r := jsFindIndex f xs
      if r == -1 then -1 else r + 1

/-- Handler `exports.unjoin`:

```js
Event.findById(req.params.id, function (err, event) {
  if (!event) { return res.send(404); }
  var pIdx = _.findIndex(event.participants, function (p) {
    return req.user._id.equals(p.participant);
  });
  if (pIdx === -1) {
    return res.json(403, {message: 'You have not joined this event.'});
  }
  event.participants.splice(pIdx, 1);
  event.save(...);  // re-populate, res.json(event)
});
``` -/
def unjoin (user : User) (stored : Option Event) : HandlerOutcome :=
  match stored with
  | none => ⟨.send 404, none, []⟩
  | some event =>
    let pIdx := jsFindIndex (fun p => user._id == p.participant) event.participants
    if pIdx == -1 then ⟨.jsonMsg 403 "You have not joined this event.", none, []⟩
    else
      let event' := { event with participants := event.participants.eraseIdx pIdx.toNat }
      ⟨.jsonEvent 200 event', some event', []⟩

/-- Handler `exports.message`:

```js
Event.findById(req.params.id, function (err, event) {
  if (!event) { return res.send(404); }
  if (!_.find(event.participants, function (p) {
      return req.user._id.equals(p.participant);
    })) {
    return res.json(403, {message: 'You must be attending this event to send messages.'});
  }
  req.body.datetime = moment().toISOString();
  req.body.poster = req.user._id;
  event.messages.push(req.body);
  event.save(function (err, event) {
    var notifications = _(event.participants).pluck('participant')
      .filter(function (id) { return !req.user._id.equals(id); })
      .map(function (id) {
        return { user: id, datetime: moment().toISOString(),
                 data: { name: 'event.message', text: req.body.text,
                         event: event, poster: req.user } };
      }).value();
    Notification.create(notifications);
    ...  // re-populate, res.json(event)
  });
});
``` -/
def message (user : User) (stored : Option Event) (text : String) (now : String) :
    HandlerOutcome :=
  match stored with
  | none => ⟨.send 404, none, []⟩
  | some event =>
    if !(event.participants.any fun p => user._id == p.participant) then
      ⟨.jsonMsg 403 "You must be attending this event to send messages.", none, []⟩
    else
      let event' :=
        { event with
          messages := event.messages ++ [{ poster := user._id, datetime := now, text := text }] }
      let notifications :=
        (((event'.participants.map (·.participant)).filter
            fun id => !(user._id == id)).map
          fun id =>
            { user := id, datetime := now
              data := { name := "event.message", event := event'
                        text := some text, poster := some user } : Notification })
      ⟨.jsonEvent 200 event', some event', notifications⟩

/-!
## List controller

The unnamed source file `src/unnamed/part_000` is the List controller
(`require('./list.model')`). Only `update` is claim-relevant.

An entry's `place` is either a bare ObjectId reference (no `_id` property),
or a populated place document (an object carrying `_id` plus payload
fields), or absent.
-/

/-- A populated place document as a client may echo it back: its `_id` (which
Mongoose serializes on every populated document, but a hand-built object may
lack) and the rest of its payload, opaque here. -/
structure PlaceDoc where
  _id : Option PlaceId
  payload : String
deriving DecidableEq, Repr

/-- The value of `entry.place`. -/
inductive PlaceRef where
  | objId (i : PlaceId)
  | doc (d : PlaceDoc)
deriving DecidableEq, Repr

/-- One entry of `list.entries`. Other entry fields are untouched by the
handler and omitted. -/
structure ListEntry where
  place : Option PlaceRef
deriving DecidableEq, Repr

/-- A List document. -/
structure StoredList where
  name : String
  entries : List ListEntry
deriving DecidableEq, Repr

/-- The un-populate step of `exports.update` on one entry:

```js
if (entry.place && entry.place._id) {
  entry.place = entry.place._id;
}
```

A bare ObjectId has no `_id` property, so only a populated document with a
(truthy) `_id` is rewritten. -/
def normalizeEntry (entry : ListEntry) : ListEntry :=
  match entry.place with
  | some (.doc d) =>
    match d._id with
    | some i => { entry with place := some (.objId i) }
    | none => entry
  | _ => entry

/-- The `forEach` loop over the submitted entries. -/
def normalizeEntries (entries : List ListEntry) : List ListEntry :=
  entries.map normalizeEntry

/-- The body of the List `update` request after `delete req.body._id`.
`entries` is `none` when the client sent no `entries` field. -/
structure ListUpdateBody where
  name : Option String
  entries : Option (List ListEntry)
deriving DecidableEq, Repr

/-- A JavaScript runtime exception escaping a handler. -/
inductive JsError where
  | typeError (msg : String)
deriving DecidableEq, Repr

/-- The HTTP response of a List handler. -/
inductive ListResponse where
  | send (status : Nat)
  | jsonList (status : Nat) (list : StoredList)
deriving DecidableEq, Repr

/-- The response/persistence outcome of the List `update` handler. -/
structure ListOutcome where
  response : ListResponse
  savedList : Option StoredList
deriving DecidableEq, Repr

/-- The List `update` handler:

```js
exports.update = function(req, res) {
  if(req.body._id) { delete req.body._id; }
  console.log(req.body);
  // Un-populate
  req.body.entries.forEach(function (entry) {
    if (entry.place && entry.place._id) { entry.place = entry.place._id; }
  });
  List.findById(req.params.id, function (err, list) {
    if (err) { return handleError(res, err); }
    if(!list) { return res.send(404); }
    list.entries = req.body.entries;
    list.name = req.body.name || list.name;
    list.save(...);  // re-populate, res.json(200, list)
  });
};
```

`req.body.entries.forEach` runs synchronously before `List.findById`; when
the body has no `entries` field it throws a `TypeError`
(reading `forEach` of `undefined`) and the handler produces no response at
all, whatever the lookup would have returned. The lookup is therefore an
input consumed only after the loop: `Except String (Option StoredList)`,
where `.error e` is a storage error (the 500 path) and `.ok none` an absent
document (the 404 path). -/
def listUpdate (body : ListUpdateBody) (lookup : Except String (Option StoredList)) :
    Except JsError ListOutcome :=
  match body.entries with
  | none => .error (.typeError "Cannot read property forEach of undefined")
  | some entries =>
    let entries := normalizeEntries entries
    match lookup with
    | .error _ => .ok ⟨.send 500, none⟩
    | .ok none => .ok ⟨.send 404, none⟩
    | .ok (some list) =>
      let list' := { list with entries := entries, name := jsOrStr body.name list.name }
      .ok ⟨.jsonList 200 list', some list'⟩

/-!
## Concrete fixtures

Small documents used to instantiate the theorems: one group administered by
user 10, an open event, and an event restricted to that group.
-/

/-- Group 1, administered by user 10. -/
def g1 : Group := { _id := 1, administrator := some 10 }

/-- A plain member who administers group `g1` (user 10). -/
def uAdmin1 : User := { _id := 10, role := "member", groups := [] }

/-- A plain member whose `groups` contains group 1 (user 11). -/
def uMember : User := { _id := 11, role := "member", groups := [1] }

/-- A plain member with no groups, not a creator of anything (user 12). -/
def uOutsider : User := { _id := 12, role := "member", groups := [] }

/-- An event with no group restriction, created by user 99. -/
def evOpen : Event :=
  { name := "open", datetime := "2015-01-01T00:00:00Z", meetupTime := "", meetupPlace := ""
    place := some "place1", creator := 99, created := "2014-12-01T00:00:00Z"
    canceled := false, groupRestriction := [], participants := [], messages := [] }

/-- The same event restricted to group `g1`, with user 99's participant
entry seeded. -/
def evRestricted : Event :=
  { evOpen with
    name := "restricted", groupRestriction := [g1]
    participants := [{ participant := 99, datetime := "2014-12-01T00:00:00Z" }] }

/-- A create-request body that also smuggles in `participants` and
`messages` arrays; the handler must discard both. -/
def createBodyJunk : CreateBody :=
  { name := "party", datetime := "2015-02-01T00:00:00Z", meetupTime := "", meetupPlace := ""
    place := some "place1", groupRestriction := []
    participants := some [{ participant := 1, datetime := "x" }
                          , { participant := 2, datetime := "y" }]
    messages := some [{ poster := 3, datetime := "z", text := "hi" }] }

/-- An event user 11 has already joined. -/
def evJoined : Event :=
  { evOpen with participants := [{ participant := 11, datetime := "t0" }] }

/-- An event with two participants: user 11 then user 5. -/
def evTwo : Event :=
  { evOpen with
    participants := [{ participant := 11, datetime := "t0" }
                     , { participant := 5, datetime := "t0" }] }

/-- An event with three participants: users 5, 11 and 7 in that order. -/
def evThree : Event :=
  { evOpen with
    participants := [{ participant := 5, datetime := "a" }
                     , { participant := 11, datetime := "b" }
                     , { participant := 7, datetime := "c" }] }

/-- Each user id appears at most once in `event.participants`. -/
def participantsUnique (e : Event) : Prop :=
  (e.participants.map (·.participant)).Nodup

/-!
## Helper lemmas
-/

@[simp]
lemma groupAdministeredBy_eq_true (g : Group) (uid : UserId) :
    groupAdministeredBy g uid = true ↔ g.administrator = some uid := by
  cases h : g.administrator <;> simp [groupAdministeredBy, h]

/-!
## Claims
-/

/-- Claim C2. `canView` characterization: an unrestricted event is visible to
everyone (including an anonymous request); a restricted event is invisible
to an anonymous request; for a present user, a restricted event is visible
iff the user's role is `admin` or `curator`, or the user administers some
restricting group, or the user's `groups` list contains the id of some
restricting group. -/
theorem C2_canView_characterization :
    (∀ (u : Option User) (e : Event), e.groupRestriction = [] → canView u e = true) ∧
    (∀ e : Event, e.groupRestriction ≠ [] → canView none e = false) ∧
    (∀ (u : User) (e : Event), e.groupRestriction ≠ [] →
      (canView (some u) e = true ↔
        u.role = "admin" ∨ u.role = "curator" ∨
        (∃ g ∈ e.groupRestriction, g.administrator = some u._id) ∨
        (∃ g ∈ e.groupRestriction, g._id ∈ u.groups))) := by
  refine ⟨?_, ?_, ?_⟩
  · intro u e he
    cases u <;> simp [canView, he]
  · intro e he
    simp [canView, he]
  · intro u e he
    simp only [canView, List.isEmpty_iff, he, Bool.false_or, Bool.or_eq_true,
      List.any_eq_true, beq_iff_eq, groupAdministeredBy_eq_true, false_or]
    constructor
    · rintro ((h | h) | ⟨g, hg, hadm | ⟨gid, hgid, hid⟩⟩)
      · exact Or.inl h
      · exact Or.inr (Or.inl h)
      · exact Or.inr (Or.inr (Or.inl ⟨g, hg, hadm⟩))
      · exact Or.inr (Or.inr (Or.inr ⟨g, hg, hid ▸ hgid⟩))
    · rintro (h | h | ⟨g, hg, hadm⟩ | ⟨g, hg, hmem⟩)
      · exact Or.inl (Or.inl h)
      · exact Or.inl (Or.inr h)
      · exact Or.inr ⟨g, hg, Or.inl hadm⟩
      · exact Or.inr ⟨g, hg, Or.inr ⟨g._id, hmem, rfl⟩⟩

/-- Claim C2 witness. The characterization applied to concrete documents:
the open event is visible anonymously; the restricted event is not visible
anonymously but is visible to the member of group 1. -/
theorem C2_canView_characterization_witness :
    canView none evOpen = true ∧
    canView none evRestricted = false ∧
    canView (some uMember) evRestricted = true := by
  refine ⟨C2_canView_characterization.1 none evOpen rfl,
    C2_canView_characterization.2.1 evRestricted (by decide), ?_⟩
  exact (C2_canView_characterization.2.2 uMember evRestricted (by decide)).2
    (Or.inr (Or.inr (Or.inr ⟨g1, by decide, by decide⟩)))

/-- Claim C3 counterexample. The claim says `canEdit` with an absent user
returns `false`; in the code `user.role` throws a `TypeError` on an absent
user (modeled as `none`), so no boolean — in particular not `false` — is
returned. -/
theorem C3_canEdit_absent_throws : ¬ canEdit none evRestricted = some false := by
  simp [canEdit]

/-- Claim C3 (amended). `canEdit` with an absent user throws (returns no
boolean); with a present user it returns `true` iff the user's role is
`admin` or `curator`, or the user is the event's creator, or the user
administers some group of `groupRestriction`. -/
theorem C3_canEdit_characterization :
    (∀ e : Event, canEdit none e = none) ∧
    (∀ (u : User) (e : Event),
      (canEdit (some u) e = some true ↔
        u.role = "admin" ∨ u.role = "curator" ∨ e.creator = u._id ∨
        (∃ g ∈ e.groupRestriction, g.administrator = some u._id))) := by
  refine ⟨fun e => rfl, fun u e => ?_⟩
  simp only [canEdit, Option.some_inj, Bool.or_eq_true, List.any_eq_true,
    beq_iff_eq, groupAdministeredBy_eq_true]
  tauto

/-- Claim C1 (code bug). The authorization gates of `show`, `update` (and
likewise `cancel` and `join`) are dead: the source tests
`!canView(req.user)` / `!canEdit(req.user)`, the truthiness of a curried
*partial application* — a function object, always truthy — instead of the
predicate's value on the event. Concretely: the restricted event is not
viewable anonymously, yet `show` returns it with 200; user 12 may not edit
it (`canEdit = false`), yet `update` applies the change and returns 200. -/
theorem C1_auth_gates_dead :
    canView none evRestricted = false ∧
    show' (some evRestricted) = ⟨.jsonEvent 200 evRestricted, none, []⟩ ∧
    canEdit (some uOutsider) evRestricted = some false ∧
    update (some evRestricted)
        { name := some "changed", datetime := none, meetupTime := none
          meetupPlace := none, groupRestriction := none } =
      ⟨.jsonEvent 200 { evRestricted with name := "changed" },
       some { evRestricted with name := "changed" }, []⟩ ∧
    ({ evRestricted with name := "changed" } : Event) ≠ evRestricted := by
  refine ⟨by decide, by decide, by decide, ?_, by decide⟩
  simp [update, curriedGateTruthy, jsOrStr]

/-- Claim C4. Whatever the create body (in particular whatever `participants`
or `messages` arrays it carries), as long as its `place` is truthy the
persisted event has `creator` the actor's id, exactly the one seeded
participant entry (the actor, at `now`), and zero messages. -/
theorem C4_create_seeds_creator_only (u : User) (body : CreateBody) (now : String)
    (h : jsTruthyOptStr body.place = true) :
    ∃ e : Event, create u body now = ⟨.jsonEvent 201 e, some e, []⟩ ∧
      e.creator = u._id ∧
      e.participants = [{ participant := u._id, datetime := now }] ∧
      e.messages = [] := by
  unfold create
  rw [h]
  exact ⟨_, rfl, rfl, rfl, rfl⟩

/-- Claim C4 witness. The creation property at a concrete body that supplies
both junk arrays. -/
theorem C4_create_seeds_creator_only_witness :
    jsTruthyOptStr createBodyJunk.place = true ∧
    ∃ e : Event, create uOutsider createBodyJunk "t0" = ⟨.jsonEvent 201 e, some e, []⟩ ∧
      e.creator = uOutsider._id ∧
      e.participants = [{ participant := uOutsider._id, datetime := "t0" }] ∧
      e.messages = [] :=
  ⟨by decide, C4_create_seeds_creator_only uOutsider createBodyJunk "t0" (by decide)⟩

lemma any_participant_eq_true (uid : UserId) (ps : List ParticipantEntry) :
    (ps.any fun p => uid == p.participant) = true ↔ ∃ p ∈ ps, p.participant = uid := by
  simp only [List.any_eq_true, beq_iff_eq]
  exact ⟨fun ⟨p, hp, h⟩ => ⟨p, hp, h.symm⟩, fun ⟨p, hp, h⟩ => ⟨p, hp, h.symm⟩⟩

lemma any_participant_eq_false (uid : UserId) (ps : List ParticipantEntry) :
    (ps.any fun p => uid == p.participant) = false ↔ ∀ p ∈ ps, p.participant ≠ uid := by
  rw [← Bool.not_eq_true, any_participant_eq_true]
  simp

lemma not_mem_map_participant (uid : UserId) (ps : List ParticipantEntry)
    (h : ∀ p ∈ ps, p.participant ≠ uid) : uid ∉ ps.map (·.participant) := by
  simp only [List.mem_map, not_exists, not_and]
  intro p hp
  exact h p hp

/-- Claim C5. Participant uniqueness: a join by a user already present is
rejected with 403 "You have already joined this event." and nothing is
saved; a first join appends exactly that user's entry at the end; and the
at-most-once invariant on `participants` is preserved by every handler that
can write an event (`join`, `unjoin`, `create`, `update`, `cancel`,
`message`). -/
theorem C5_participants_unique :
    (∀ (u : User) (e : Event) (now : String),
      (∃ p ∈ e.participants, p.participant = u._id) →
      join u (some e) now = ⟨.jsonMsg 403 "You have already joined this event.", none, []⟩) ∧
    (∀ (u : User) (e : Event) (now : String),
      (∀ p ∈ e.participants, p.participant ≠ u._id) →
      (let e' := { e with
          participants := e.participants ++ [{ participant := u._id, datetime := now }] }
       join u (some e) now = ⟨.jsonEvent 200 e', some e', []⟩)) ∧
    (∀ (u : User) (e e' : Event) (now : String), participantsUnique e →
      (join u (some e) now).saved = some e' → participantsUnique e') ∧
    (∀ (u : User) (e e' : Event), participantsUnique e →
      (unjoin u (some e)).saved = some e' → participantsUnique e') ∧
    (∀ (u : User) (body : CreateBody) (now : String) (e' : Event),
      (create u body now).saved = some e' → participantsUnique e') ∧
    (∀ (e e' : Event) (body : UpdateBody), participantsUnique e →
      (update (some e) body).saved = some e' → participantsUnique e') ∧
    (∀ (e e' : Event) (now : String), participantsUnique e →
      (cancel (some e) now).saved = some e' → participantsUnique e') ∧
    (∀ (u : User) (e e' : Event) (text now : String), participantsUnique e →
      (message u (some e) text now).saved = some e' → participantsUnique e') := by
  refine ⟨?_, ?_, ?_, ?_, ?_, ?_, ?_, ?_⟩
  · intro u e now h
    have hany := (any_participant_eq_true u._id e.participants).2 h
    simp [join, curriedGateTruthy, hany]
  · intro u e now h
    have hany := (any_participant_eq_false u._id e.participants).2 h
    simp [join, curriedGateTruthy, hany]
  · intro u e e' now hU hsaved
    cases hany : (e.participants.any fun p => u._id == p.participant) with
    | true => simp [join, curriedGateTruthy, hany] at hsaved
    | false =>
      simp only [join, curriedGateTruthy, Bool.not_true, Bool.false_eq_true, if_false,
        hany, Option.some_inj] at hsaved
      rw [← hsaved]
      unfold participantsUnique
      simp only [List.map_append, List.map_cons, List.map_nil]
      rw [List.nodup_append]
      refine ⟨hU, List.nodup_singleton _, ?_⟩
      intro a ha hmem
      rcases List.mem_singleton.1 hmem with rfl
      exact not_mem_map_participant _ _ ((any_participant_eq_false _ _).1 hany) ha
  · intro u e e' hU hsaved
    by_cases hidx :
        (jsFindIndex (fun p => u._id == p.participant) e.participants == -1) = true
    · simp [unjoin, hidx] at hsaved
    · simp only [unjoin, hidx, Bool.false_eq_true, if_false, Option.some_inj] at hsaved
      rw [← hsaved]
      exact hU.sublist ((List.eraseIdx_sublist _ _).map _)
  · intro u body now e' hsaved
    cases hpl : jsTruthyOptStr body.place with
    | false => simp [create, hpl] at hsaved
    | true =>
      simp only [create, hpl, Bool.not_true, Bool.false_eq_true, if_false,
        Option.some_inj] at hsaved
      rw [← hsaved]
      exact List.nodup_singleton _
  · intro e e' body hU hsaved
    simp only [update, curriedGateTruthy, Bool.not_true, Bool.false_eq_true, if_false,
      Option.some_inj] at hsaved
    rw [← hsaved]
    exact hU
  · intro e e' now hU hsaved
    simp only [cancel, curriedGateTruthy, Bool.not_true, Bool.false_eq_true, if_false,
      Option.some_inj] at hsaved
    rw [← hsaved]
    exact hU
  · intro u e e' text now hU hsaved
    cases hany : (e.participants.any fun p => u._id == p.participant) with
    | false => simp [message, hany] at hsaved
    | true =>
      simp only [message, hany, Bool.not_true, Bool.false_eq_true, if_false,
        Option.some_inj] at hsaved
      rw [← hsaved]
      exact hU

/-- Claim C5 witness. On `evJoined`: user 11's second join is rejected with
the "already joined" message; user 12's first join appends exactly one
entry, and the resulting document still satisfies the invariant. -/
theorem C5_participants_unique_witness :
    join uMember (some evJoined) "t1" =
      ⟨.jsonMsg 403 "You have already joined this event.", none, []⟩ ∧
    (let e' := { evJoined with
        participants := evJoined.participants ++ [{ participant := uOutsider._id, datetime := "t1" }] }
     join uOutsider (some evJoined) "t1" = ⟨.jsonEvent 200 e', some e', []⟩) ∧
    participantsUnique { evJoined with
        participants := evJoined.participants ++ [{ participant := uOutsider._id, datetime := "t1" }] } :=
  ⟨C5_participants_unique.1 uMember evJoined "t1"
      ⟨{ participant := 11, datetime := "t0" }, by decide, rfl⟩,
   C5_participants_unique.2.1 uOutsider evJoined "t1" (by decide),
   C5_participants_unique.2.2.1 uOutsider evJoined _ "t1"
     (by unfold participantsUnique; decide)
     (congrArg HandlerOutcome.saved
       (C5_participants_unique.2.1 uOutsider evJoined "t1" (by decide)))⟩

/-!
## `findIndex`/`splice` lemmas for `unjoin`
-/

lemma jsFindIndex_eq_neg_one {α : Type} (f : α → Bool) (l : List α)
    (h : ∀ x ∈ l, f x = false) : jsFindIndex f l = -1 := by
  induction l with
  | nil => rfl
  | cons x xs ih =>
    have hx : f x = false := h x (List.mem_cons_self x xs)
    have ihx : jsFindIndex f xs = -1 := ih fun y hy => h y (List.mem_cons_of_mem x hy)
    simp [jsFindIndex, hx, ihx]

lemma jsFindIndex_append_cons {α : Type} (f : α → Bool) (l₁ l₂ : List α) (p : α)
    (h₁ : ∀ x ∈ l₁, f x = false) (hp : f p = true) :
    jsFindIndex f (l₁ ++ p :: l₂) = (l₁.length : Int) := by
  induction l₁ with
  | nil => simp [jsFindIndex, hp]
  | cons x xs ih =>
    have hx : f x = false := h₁ x (List.mem_cons_self x xs)
    have ihx := ih fun y hy => h₁ y (List.mem_cons_of_mem x hy)
    have hne : ((xs.length : Int) == -1) = false := by
      rw [beq_eq_false_iff_ne]
      omega
    have hunfold : jsFindIndex f ((x :: xs) ++ p :: l₂) =
        (if f x then 0 else
          if jsFindIndex f (xs ++ p :: l₂) == -1 then -1
          else jsFindIndex f (xs ++ p :: l₂) + 1) := rfl
    rw [hunfold, hx, ihx, hne]
    simp only [Bool.false_eq_true, if_false, List.length_cons]
    omega

lemma eraseIdx_append_cons {α : Type} (l₁ l₂ : List α) (p : α) :
    (l₁ ++ p :: l₂).eraseIdx l₁.length = l₁ ++ l₂ := by
  induction l₁ with
  | nil => rfl
  | cons x xs ih => simpa [List.eraseIdx] using ih

/-- Claim C6. `unjoin` by a non-participant is rejected with 403
"You have not joined this event." and nothing is saved; `unjoin` by a
participant whose entry `p` sits between `l₁` and `l₂` (with no earlier
entry of theirs in `l₁`) removes exactly that entry: the saved participants
are `l₁ ++ l₂`, order preserved. -/
theorem C6_unjoin_removes_single_entry :
    (∀ (u : User) (e : Event),
      (∀ p ∈ e.participants, p.participant ≠ u._id) →
      unjoin u (some e) = ⟨.jsonMsg 403 "You have not joined this event.", none, []⟩) ∧
    (∀ (u : User) (e : Event) (l₁ l₂ : List ParticipantEntry) (p : ParticipantEntry),
      e.participants = l₁ ++ p :: l₂ → p.participant = u._id →
      (∀ q ∈ l₁, q.participant ≠ u._id) →
      (let e' := { e with participants := l₁ ++ l₂ }
       unjoin u (some e) = ⟨.jsonEvent 200 e', some e', []⟩)) := by
  constructor
  · intro u e h
    have hidx : jsFindIndex (fun p => u._id == p.participant) e.participants = -1 :=
      jsFindIndex_eq_neg_one _ _ fun p hp => by
        rw [beq_eq_false_iff_ne]
        exact fun hh => h p hp hh.symm
    simp [unjoin, hidx]
  · intro u e l₁ l₂ p hpart hpid h₁
    have hidx : jsFindIndex (fun q => u._id == q.participant) e.participants
        = (l₁.length : Int) := by
      rw [hpart]
      refine jsFindIndex_append_cons _ _ _ _ (fun q hq => ?_) (by simp [hpid])
      rw [beq_eq_false_iff_ne]
      exact fun hh => h₁ q hq hh.symm
    have hne : ((l₁.length : Int) == -1) = false := by
      rw [beq_eq_false_iff_ne]
      omega
    simp only [unjoin, hidx, hne, Bool.false_eq_true, if_false, Int.toNat_natCast]
    rw [hpart, eraseIdx_append_cons]

/-- Claim C6 witness. On `evThree`: user 12 (not a participant) is rejected;
user 11's unjoin removes exactly the middle entry, keeping users 5 and 7 in
order. -/
theorem C6_unjoin_removes_single_entry_witness :
    unjoin uOutsider (some evThree) =
      ⟨.jsonMsg 403 "You have not joined this event.", none, []⟩ ∧
    (let e' := { evThree with
        participants := [{ participant := 5, datetime := "a" }]
          ++ [{ participant := 7, datetime := "c" }] }
     unjoin uMember (some evThree) = ⟨.jsonEvent 200 e', some e', []⟩) :=
  ⟨C6_unjoin_removes_single_entry.1 uOutsider evThree (by decide),
   C6_unjoin_removes_single_entry.2 uMember evThree
     [{ participant := 5, datetime := "a" }] [{ participant := 7, datetime := "c" }]
     { participant := 11, datetime := "b" } rfl rfl (by decide)⟩

/-- Claim C7. A successful `cancel` saves the event with `canceled := true`
(participants and messages untouched) and submits exactly one notification
per participant, addressed to that participant's id, each tagged
`event.cancel`. -/
theorem C7_cancel_notifies_each_participant (e : Event) (now : String) :
    (let e' := { e with canceled := true }
     cancel (some e) now =
       ⟨.jsonEvent 200 e', some e',
        e.participants.map fun p =>
          { user := p.participant, datetime := now
            data := { name := "event.cancel", event := e', text := none, poster := none } }⟩) ∧
    (cancel (some e) now).notifications.length = e.participants.length ∧
    ({ e with canceled := true } : Event).participants = e.participants ∧
    ({ e with canceled := true } : Event).messages = e.messages := by
  refine ⟨?_, ?_, rfl, rfl⟩
  · simp only [cancel, curriedGateTruthy, Bool.not_true, Bool.false_eq_true, if_false,
      List.map_map]
    rfl
  · simp [cancel, curriedGateTruthy]

/-- Count-based length of a filtered id list, used for the
"one notification per participant except the poster" count. -/
lemma length_filter_ne_count (a : Nat) (l : List Nat) :
    (l.filter fun b => !(a == b)).length = l.length - l.count a := by
  induction l with
  | nil => rfl
  | cons x xs ih =>
    have hcle := List.count_le_length a xs
    by_cases hax : a = x
    · subst hax
      simp only [List.filter_cons, beq_self_eq_true, Bool.not_true, Bool.false_eq_true,
        if_false, List.count_cons_self, List.length_cons, ih]
      omega
    · have hbeq : (a == x) = false := by
        rw [beq_eq_false_iff_ne]
        exact hax
      have hbeq' : (x == a) = false := by
        rw [beq_eq_false_iff_ne]
        exact fun h => hax h.symm
      simp only [List.filter_cons, hbeq, hbeq', Bool.not_false, if_true, List.length_cons,
        List.count_cons, Bool.false_eq_true, if_false, ih]
      omega

/-- Claim C8. A message by a non-participant is rejected with 403
"You must be attending this event to send messages." and nothing is saved.
A message by a participant appends exactly one message entry (poster set to
the actor, datetime stamped server-side) and submits one notification per
participant id other than the poster's, each carrying the text and the
poster; when the poster appears exactly once among the participants that is
exactly `n - 1` notifications. -/
theorem C8_message_notifies_other_participants :
    (∀ (u : User) (e : Event) (text now : String),
      (∀ p ∈ e.participants, p.participant ≠ u._id) →
      message u (some e) text now =
        ⟨.jsonMsg 403 "You must be attending this event to send messages.", none, []⟩) ∧
    (∀ (u : User) (e : Event) (text now : String),
      (∃ p ∈ e.participants, p.participant = u._id) →
      (let e' := { e with
          messages := e.messages ++ [{ poster := u._id, datetime := now, text := text }] }
       message u (some e) text now =
         ⟨.jsonEvent 200 e', some e',
          ((e.participants.map (·.participant)).filter fun id => !(u._id == id)).map
            fun id =>
              { user := id, datetime := now
                data := { name := "event.message", event := e'
                          text := some text, poster := some u } }⟩)) ∧
    (∀ (u : User) (e : Event) (text now : String),
      (e.participants.map (·.participant)).count u._id = 1 →
      (message u (some e) text now).notifications.length = e.participants.length - 1) := by
  refine ⟨?_, ?_, ?_⟩
  · intro u e text now h
    have hany := (any_participant_eq_false u._id e.participants).2 h
    simp [message, hany]
  · intro u e text now h
    have hany := (any_participant_eq_true u._id e.participants).2 h
    simp [message, hany]
  · intro u e text now hcount
    have hmem : u._id ∈ e.participants.map (·.participant) := by
      by_contra hnot
      rw [List.count_eq_zero_of_not_mem hnot] at hcount
      exact absurd hcount (by omega)
    have hex : ∃ p ∈ e.participants, p.participant = u._id := by
      rcases List.mem_map.1 hmem with ⟨p, hp, hpe⟩
      exact ⟨p, hp, hpe⟩
    have hany := (any_participant_eq_true u._id e.participants).2 hex
    simp only [message, hany, Bool.not_true, Bool.false_eq_true, if_false]
    rw [List.length_map, length_filter_ne_count, hcount, List.length_map]

/-- Claim C8 witness. On `evTwo`: user 12 (not attending) is rejected; user
11's message is appended and exactly one notification (to user 5, i.e.
`2 - 1` of them) is produced. -/
theorem C8_message_notifies_other_participants_witness :
    message uOutsider (some evTwo) "hi" "t2" =
      ⟨.jsonMsg 403 "You must be attending this event to send messages.", none, []⟩ ∧
    (let e' := { evTwo with
        messages := evTwo.messages
          ++ [{ poster := uMember._id, datetime := "t2", text := "hi" }] }
     message uMember (some evTwo) "hi" "t2" =
       ⟨.jsonEvent 200 e', some e',
        ((evTwo.participants.map (·.participant)).filter fun id => !(uMember._id == id)).map
          fun id =>
            { user := id, datetime := "t2"
              data := { name := "event.message", event := e'
                        text := some "hi", poster := some uMember } }⟩) ∧
    (message uMember (some evTwo) "hi" "t2").notifications.length
      = evTwo.participants.length - 1 :=
  ⟨C8_message_notifies_other_participants.1 uOutsider evTwo "hi" "t2" (by decide),
   C8_message_notifies_other_participants.2.1 uMember evTwo "hi" "t2"
     ⟨{ participant := 11, datetime := "t0" }, by decide, rfl⟩,
   C8_message_notifies_other_participants.2.2 uMember evTwo "hi" "t2" (by decide)⟩

/-!
## List update claims
-/

lemma normalizeEntry_idem (e : ListEntry) :
    normalizeEntry (normalizeEntry e) = normalizeEntry e := by
  rcases e with ⟨place⟩
  rcases place with _ | r
  · rfl
  rcases r with i | d
  · rfl
  rcases d with ⟨oid, payload⟩
  rcases oid with _ | i
  · rfl
  · rfl

/-- Claim C9. The un-populate step of List `update`: an entry whose place is a
populated document carrying `_id = i` is rewritten to the bare reference
`i`; normalization is idempotent (an already-normalized entries list is a
fixed point); and the persisted record on a successful update holds exactly
the normalized entries. -/
theorem C9_normalize_roundtrip :
    (∀ (i : PlaceId) (payload : String),
      normalizeEntry { place := some (.doc { _id := some i, payload := payload }) }
        = { place := some (.objId i) }) ∧
    (∀ entries : List ListEntry,
      normalizeEntries (normalizeEntries entries) = normalizeEntries entries) ∧
    (∀ (name : Option String) (entries : List ListEntry) (l : StoredList),
      listUpdate { name := name, entries := some entries } (.ok (some l)) =
        (let l' := { l with entries := normalizeEntries entries
                            name := jsOrStr name l.name }
         .ok ⟨.jsonList 200 l', some l'⟩)) := by
  refine ⟨fun i payload => rfl, fun entries => ?_, fun name entries l => rfl⟩
  unfold normalizeEntries
  rw [List.map_map]
  exact congrArg (fun f => List.map f entries) (funext normalizeEntry_idem)

/-- Claim C10. A List update request whose body lacks `entries` throws before
anything else: `req.body.entries.forEach` raises a `TypeError` ahead of the
`List.findById` call, so whatever the lookup would yield (a storage error,
an absent list, or a present one), the handler renders no response — not
200, 404 or 500 — and no stored list is touched (`toOption = none`: there is
no outcome, hence no saved record). -/
theorem C10_listUpdate_without_entries_throws (name : Option String)
    (lookup : Except String (Option StoredList)) :
    listUpdate { name := name, entries := none } lookup =
      .error (.typeError "Cannot read property forEach of undefined") ∧
    (listUpdate { name := name, entries := none } lookup).toOption = none :=
  ⟨rfl, rfl⟩

end RoadAmico
